import Mathlib

/-!
# Friend presence queries of `mpsd/friend.go`

A shallow embedding of `PublishConfig.JoinableFriends`, `PublishConfig.OnlineFriends`
and `PublishConfig.getGamertagFromXUID`.

Everything the Go code reaches outside `friend.go` (the HTTP client, the activity
search, the token source, request construction, JSON decoding) is a parameter of the
embedding.  Effects are explicit: every outbound call takes the state of the outside
world, of an arbitrary type `σ`, and returns the next one.
-/

namespace Mpsd

/-! ## Constants (friend.go 14-17) -/

def MinecraftTitleID : String := "1739947436"

def MinecraftServiceConfigID : String := "4fc10100-5f7a-4470-899b-280835760c07"

/-- The value of `http.StatusOK`. -/
def StatusOK : Int := 200

/-- The value of `http.MethodGet`. -/
def MethodGet : String := "GET"

/-- Modelled from the spec: the constant `SocialGroupPeople` is declared in another file of
the package; the spec names the social group scope "people". -/
def SocialGroupPeople : String := "people"

/-! ## Data model -/

/-- FriendMinecraftStatus (friend.go 20-24). -/
structure FriendMinecraftStatus where
  Gamertag : String
  XUID : String
  TitleID : String
  deriving DecidableEq, Repr

/-- Modelled from the spec: the type behind `activity.RelatedInfo` is declared in another
file of the package; `friend.go` reads only its `Closed` flag. -/
structure ActivityHandleRelatedInfo where
  Closed : Bool
  deriving DecidableEq, Repr

/-- Modelled from the spec: the activity record type is declared in another file of the
package; `friend.go` reads `TitleID`, `OwnerXUID` and the pointer `RelatedInfo`
(`none` is the nil pointer). -/
structure ActivityHandle where
  TitleID : String
  OwnerXUID : String
  RelatedInfo : Option ActivityHandleRelatedInfo
  deriving DecidableEq, Repr

/-- The part of a token that `friend.go` reads: `tok.DisplayClaims().XUID`. -/
structure Token where
  XUID : String
  deriving DecidableEq, Repr

/-- An `*http.Request`, as far as `getGamertagFromXUID` builds it. -/
structure Request where
  Method : String
  URL : String
  Header : List (String × String)
  deriving DecidableEq, Repr

/-- The call `req.Header.Set(key, value)`: replaces whatever the key held. -/
def Request.HeaderSet (req : Request) (key value : String) : Request :=
  { req with Header := (req.Header.filter (fun kv => kv.1 ≠ key)) ++ [(key, value)] }

/-- An `*http.Response`, as far as `getGamertagFromXUID` reads it. -/
structure Response where
  StatusCode : Int
  Body : String
  deriving DecidableEq, Repr

/-- One element of `settings` in the profile response (friend.go 150-152). -/
structure ProfileSetting where
  Value : String
  deriving DecidableEq, Repr

/-- One element of `profileUsers` in the profile response (friend.go 149-153). -/
structure ProfileUser where
  Settings : List ProfileSetting
  deriving DecidableEq, Repr

/-- The anonymous struct `response` decoded from the body (friend.go 148-154). -/
structure ProfileResponse where
  ProfileUsers : List ProfileUser
  deriving DecidableEq, Repr

/-- The errors `getGamertagFromXUID` returns, one constructor per `fmt.Errorf`. -/
inductive LookupError where
  /-- A "create request: %w" error (line 132). -/
  | createRequest (cause : String)
  /-- An "execute request: %w" error (line 140). -/
  | executeRequest (cause : String)
  /-- An "unexpected status code: %d" error (line 145). -/
  | unexpectedStatusCode (code : Int)
  /-- A "decode response: %w" error (line 157). -/
  | decodeResponse (cause : String)
  /-- A "gamertag not found for XUID: %s" error (line 164). -/
  | gamertagNotFound (xuid : String)
  deriving DecidableEq, Repr

/-- The errors `JoinableFriends` and `OnlineFriends` return, one constructor per
`fmt.Errorf`. -/
inductive FriendsError where
  /-- A "parse service config ID: %w" error (lines 40, 92). -/
  | parseServiceConfigID (cause : String)
  /-- A "search activities: %w" error (lines 45, 97). -/
  | searchActivities (cause : String)
  /-- An "obtain token: %w" error (lines 50, 102). -/
  | obtainToken (cause : String)
  deriving DecidableEq, Repr

/-- The Go return pair `([]FriendMinecraftStatus, error)`: `friends = none` is the nil
slice, `err = none` the nil error. -/
structure FriendsResult where
  friends : Option (List FriendMinecraftStatus)
  err : Option FriendsError
  deriving DecidableEq, Repr

/-! ## Collaborators -/

/-- An `*http.Client`: its method `Do` sends a request in a world and yields the response
or a transport error, and the next world. -/
structure Client (σ : Type) where
  Do : Request → σ → Except String Response × σ

/-- The interface `xsapi.TokenSource`: its method `Token`. -/
structure TokenSource (σ : Type) where
  Token : σ → Except String Token × σ

/-- The struct `ActivityFilter`, with the two fields `friend.go` sets. -/
structure ActivityFilter (σ : Type) where
  Client : Client σ
  SocialGroup : String

/-- PublishConfig, with the field `friend.go` uses; `Client = none` is the nil pointer. -/
structure PublishConfig (σ : Type) where
  Client : Option (Client σ)

/-- What `friend.go` calls and does not define. The context `ctx` of the Go code only
travels into `NewRequestWithContext`; it is part of that parameter. -/
structure Externals (σ : Type) where
  /-- The client `&http.Client{}` that replaces a nil `conf.Client`. -/
  defaultClient : Client σ
  /-- The client after `internal.SetTransport(conf.Client, src)`. -/
  SetTransport : Client σ → TokenSource σ → Client σ
  /-- The method `ActivityFilter.Search(src, serviceConfigID)`. -/
  Search : ActivityFilter σ → TokenSource σ → List Nat → σ →
    Except String (List ActivityHandle) × σ
  /-- The function `http.NewRequestWithContext(ctx, method, url, nil)`. -/
  NewRequestWithContext : String → String → Except String Request
  /-- The call `json.NewDecoder(resp.Body).Decode(&response)`. -/
  Decode : String → Except String ProfileResponse
  /-- The deferred call `resp.Body.Close()`. -/
  BodyClose : Response → σ → σ

/-! ## `uuid.Parse` of github.com/google/uuid, on the bytes of a string -/

/-- The bytes of an ASCII string. -/
def goBytes (s : String) : List Nat := s.data.map Char.toNat

/-- The table `xvalues`: the value of a hexadecimal digit, 255 for any other byte. -/
def xvalues (b : Nat) : Nat :=
  if 48 ≤ b ∧ b ≤ 57 then b - 48
  else if 65 ≤ b ∧ b ≤ 70 then b - 55
  else if 97 ≤ b ∧ b ≤ 102 then b - 87
  else 255

/-- The function `xtob`: two hexadecimal digits to a byte. -/
def xtob (x1 x2 : Nat) : Nat × Bool :=
  let b1 := xvalues x1
  let b2 := xvalues x2
  (((b1 * 16) % 256) ||| b2, b1 != 255 && b2 != 255)

/-- The loop over digit offsets in `uuid.Parse`. -/
def uuidDigits (s : List Nat) : List Nat → Except String (List Nat)
  | [] => .ok []
  | x :: xs =>
    match xtob (s.getD x 0) (s.getD (x + 1) 0) with
    | (_, false) => .error "invalid UUID format"
    | (v, true) =>
      match uuidDigits s xs with
      | .error e => .error e
      | .ok vs => .ok (v :: vs)

/-- The hyphenated form, the tail of `uuid.Parse`. -/
def uuidParseCanonical (s : List Nat) : Except String (List Nat) :=
  if s.getD 8 0 ≠ 45 ∨ s.getD 13 0 ≠ 45 ∨ s.getD 18 0 ≠ 45 ∨ s.getD 23 0 ≠ 45 then
    .error "invalid UUID format"
  else
    uuidDigits s [0, 2, 4, 6, 9, 11, 14, 16, 19, 21, 24, 26, 28, 30, 32, 34]

/-- ASCII lower case of a byte, for `strings.EqualFold` on an ASCII prefix. -/
def asciiLower (b : Nat) : Nat := if 65 ≤ b ∧ b ≤ 90 then b + 32 else b

/-- The function `uuid.Parse`: accepts the 36, 45 (urn), 38 (braces) and 32 byte forms. -/
def uuidParse (s : List Nat) : Except String (List Nat) :=
  if s.length = 36 then uuidParseCanonical s
  else if s.length = 36 + 9 then
    if (s.take 9).map asciiLower ≠ goBytes "urn:uuid:" then .error "invalid urn prefix"
    else uuidParseCanonical (s.drop 9)
  else if s.length = 36 + 2 then uuidParseCanonical (s.drop 1)
  else if s.length = 32 then uuidDigits s ((List.range 16).map (fun i => i * 2))
  else .error "invalid UUID length"

/-! ## `getGamertagFromXUID` (friend.go 127-165) -/

/-- The URL built by `fmt.Sprintf` on line 128. -/
def profileURL (xuid : String) : String :=
  "https://profile.xboxlive.com/users/xuid(" ++ xuid ++ ")/profile/settings?settings=Gamertag"

/-- The method `getGamertagFromXUID`. The parameter `client` is `conf.Client`, which both
callers have made non-nil before the call. -/
def getGamertagFromXUID {σ : Type} (ext : Externals σ) (client : Client σ) (xuid : String)
    (w : σ) : Except LookupError String × σ :=
  let url := profileURL xuid
  match ext.NewRequestWithContext MethodGet url with
  | .error err => (.error (.createRequest err), w)
  | .ok req =>
    let req := req.HeaderSet "Accept" "application/json"
    let req := req.HeaderSet "X-Xbl-Contract-Version" "2"
    match client.Do req w with
    | (.error err, w1) => (.error (.executeRequest err), w1)
    | (.ok resp, w1) =>
      -- the deferred `resp.Body.Close()` runs on every return below
      let w2 := ext.BodyClose resp w1
      if resp.StatusCode ≠ StatusOK then
        (.error (.unexpectedStatusCode resp.StatusCode), w2)
      else
        match ext.Decode resp.Body with
        | .error err => (.error (.decodeResponse err), w2)
        | .ok response =>
          match response.ProfileUsers with
          | [] => (.error (.gamertagNotFound xuid), w2)
          | user :: _ =>
            match user.Settings with
            | [] => (.error (.gamertagNotFound xuid), w2)
            | setting :: _ => (.ok setting.Value, w2)

/-! ## `JoinableFriends` (friend.go 27-76) and `OnlineFriends` (friend.go 79-124) -/

/-- The loop of lines 55-73; `joinableFriends` is the slice built so far. -/
def joinableLoop {σ : Type} (ext : Externals σ) (client : Client σ)
    (currentUserXUID : String) :
    List ActivityHandle → List FriendMinecraftStatus → σ → List FriendMinecraftStatus × σ
  | [], joinableFriends, w => (joinableFriends, w)
  | activity :: rest, joinableFriends, w =>
    if activity.TitleID = MinecraftTitleID ∧ activity.OwnerXUID ≠ currentUserXUID then
      let canJoin : Bool :=
        match activity.RelatedInfo with
        | none => false
        | some info => !info.Closed
      if canJoin then
        match getGamertagFromXUID ext client activity.OwnerXUID w with
        | (r, w1) =>
          let gamertag :=
            match r with
            | .ok g => g
            | .error _ => activity.OwnerXUID
          let status : FriendMinecraftStatus :=
            { Gamertag := gamertag, XUID := activity.OwnerXUID, TitleID := activity.TitleID }
          joinableLoop ext client currentUserXUID rest (joinableFriends ++ [status]) w1
      else
        joinableLoop ext client currentUserXUID rest joinableFriends w
    else
      joinableLoop ext client currentUserXUID rest joinableFriends w

/-- The method `JoinableFriends`. -/
def JoinableFriends {σ : Type} (ext : Externals σ) (conf : PublishConfig σ)
    (src : TokenSource σ) (w : σ) : FriendsResult × σ :=
  let client := ext.SetTransport (conf.Client.getD ext.defaultClient) src
  let filter : ActivityFilter σ := { Client := client, SocialGroup := SocialGroupPeople }
  match uuidParse (goBytes MinecraftServiceConfigID) with
  | .error err => (⟨none, some (.parseServiceConfigID err)⟩, w)
  | .ok serviceConfigID =>
    match ext.Search filter src serviceConfigID w with
    | (.error err, w1) => (⟨none, some (.searchActivities err)⟩, w1)
    | (.ok activities, w1) =>
      match src.Token w1 with
      | (.error err, w2) => (⟨none, some (.obtainToken err)⟩, w2)
      | (.ok tok, w2) =>
        let currentUserXUID := tok.XUID
        match joinableLoop ext client currentUserXUID activities [] w2 with
        | (joinableFriends, w3) => (⟨some joinableFriends, none⟩, w3)

/-- The loop of lines 107-121; `onlineFriends` is the slice built so far. -/
def onlineLoop {σ : Type} (ext : Externals σ) (client : Client σ)
    (currentUserXUID : String) :
    List ActivityHandle → List FriendMinecraftStatus → σ → List FriendMinecraftStatus × σ
  | [], onlineFriends, w => (onlineFriends, w)
  | activity :: rest, onlineFriends, w =>
    if activity.TitleID = MinecraftTitleID ∧ activity.OwnerXUID ≠ currentUserXUID then
      match getGamertagFromXUID ext client activity.OwnerXUID w with
      | (r, w1) =>
        let gamertag :=
          match r with
          | .ok g => g
          | .error _ => activity.OwnerXUID
        let status : FriendMinecraftStatus :=
          { Gamertag := gamertag, XUID := activity.OwnerXUID, TitleID := activity.TitleID }
        onlineLoop ext client currentUserXUID rest (onlineFriends ++ [status]) w1
    else
      onlineLoop ext client currentUserXUID rest onlineFriends w

/-- The method `OnlineFriends`. -/
def OnlineFriends {σ : Type} (ext : Externals σ) (conf : PublishConfig σ)
    (src : TokenSource σ) (w : σ) : FriendsResult × σ :=
  let client := ext.SetTransport (conf.Client.getD ext.defaultClient) src
  let filter : ActivityFilter σ := { Client := client, SocialGroup := SocialGroupPeople }
  match uuidParse (goBytes MinecraftServiceConfigID) with
  | .error err => (⟨none, some (.parseServiceConfigID err)⟩, w)
  | .ok serviceConfigID =>
    match ext.Search filter src serviceConfigID w with
    | (.error err, w1) => (⟨none, some (.searchActivities err)⟩, w1)
    | (.ok activities, w1) =>
      match src.Token w1 with
      | (.error err, w2) => (⟨none, some (.obtainToken err)⟩, w2)
      | (.ok tok, w2) =>
        let currentUserXUID := tok.XUID
        match onlineLoop ext client currentUserXUID activities [] w2 with
        | (onlineFriends, w3) => (⟨some onlineFriends, none⟩, w3)

/-- The value `uuid.Parse` returns on the constant service configuration ID. -/
def serviceConfigUUID : List Nat :=
  [79, 193, 1, 0, 95, 122, 68, 112, 137, 155, 40, 8, 53, 118, 12, 7]

/-! ## A concrete world, for the examples

The world state is the log of the URLs sent through the HTTP client. -/

/-- A profile service: owner "A" resolves to "Alice", owner "E" gets a 404, owner "F" a
203, owner "G" a 200 with a body that has settings only in its second user, owner "H" a
200 with an empty display name; every other request fails in transport. -/
def demoClient : Client (List String) :=
  { Do := fun req log =>
      (if req.URL = profileURL "A" then .ok ⟨200, "alice"⟩
        else if req.URL = profileURL "E" then .ok ⟨404, ""⟩
        else if req.URL = profileURL "F" then .ok ⟨203, "alice"⟩
        else if req.URL = profileURL "G" then .ok ⟨200, "second"⟩
        else if req.URL = profileURL "H" then .ok ⟨200, "blank"⟩
        else .error "connection refused",
       log ++ [req.URL]) }

/-- The decoded form of the three bodies the demo service sends. -/
def demoDecode (body : String) : Except String ProfileResponse :=
  if body = "alice" then .ok ⟨[⟨[⟨"Alice"⟩]⟩]⟩
  else if body = "second" then .ok ⟨[⟨[]⟩, ⟨[⟨"Steve"⟩]⟩]⟩
  else if body = "blank" then .ok ⟨[⟨[⟨""⟩, ⟨"x"⟩]⟩]⟩
  else .error "unexpected end of JSON input"

/-- Collaborators around `demoClient`, with a search that returns `found`. -/
def demoExt (found : Except String (List ActivityHandle)) : Externals (List String) :=
  { defaultClient := demoClient
    SetTransport := fun c _ => c
    Search := fun _ _ _ log => (found, log ++ ["search"])
    NewRequestWithContext := fun method url => .ok ⟨method, url, []⟩
    Decode := demoDecode
    BodyClose := fun _ log => log }

/-- A token source that returns `tok`. -/
def demoSrc (tok : Except String Token) : TokenSource (List String) :=
  { Token := fun log => (tok, log) }

/-- A configuration with a nil client. -/
def demoConf : PublishConfig (List String) := { Client := none }

/-- The activities of the scenario: A (open), B (the caller), C (another title). -/
def scenarioActivities : List ActivityHandle :=
  [ ⟨MinecraftTitleID, "A", some ⟨false⟩⟩,
    ⟨MinecraftTitleID, "B", none⟩,
    ⟨"other", "C", none⟩ ]

/-- A longer list: A (open), B (the caller), C (another title), D (closed), E (open, its
profile lookup gets a 404), Z (no related info), A again. -/
def mixedActivities : List ActivityHandle :=
  [ ⟨MinecraftTitleID, "A", some ⟨false⟩⟩,
    ⟨MinecraftTitleID, "B", none⟩,
    ⟨"other", "C", none⟩,
    ⟨MinecraftTitleID, "D", some ⟨true⟩⟩,
    ⟨MinecraftTitleID, "E", some ⟨false⟩⟩,
    ⟨MinecraftTitleID, "Z", none⟩,
    ⟨MinecraftTitleID, "A", some ⟨false⟩⟩ ]

/-- Records none of which matches for the caller "B": own, other title. -/
def unmatchedActivities : List ActivityHandle :=
  [⟨MinecraftTitleID, "B", some ⟨false⟩⟩, ⟨"other", "C", some ⟨false⟩⟩]

/-- Records none of which is joinable for the caller "B": own, other title, closed, no
related info. -/
def unjoinableActivities : List ActivityHandle :=
  [⟨MinecraftTitleID, "B", some ⟨false⟩⟩, ⟨"other", "C", some ⟨false⟩⟩,
    ⟨MinecraftTitleID, "D", some ⟨true⟩⟩, ⟨MinecraftTitleID, "Z", none⟩]

/-! ## The words of the specification -/

/-- A record is for the target title and is not owned by the caller. -/
def matchesTarget (self : String) (a : ActivityHandle) : Bool :=
  decide (a.TitleID = MinecraftTitleID ∧ a.OwnerXUID ≠ self)

/-- The related info of a record is present and not marked closed. -/
def joinable (a : ActivityHandle) : Bool :=
  match a.RelatedInfo with
  | none => false
  | some info => !info.Closed

/-- The entry for a record, given the outcome of the profile lookup for its owner: the
display name, or the raw owner ID when the lookup failed. -/
def statusOf (a : ActivityHandle) (r : Except LookupError String) : FriendMinecraftStatus :=
  { Gamertag := (match r with
      | .ok g => g
      | .error _ => a.OwnerXUID),
    XUID := a.OwnerXUID,
    TitleID := a.TitleID }

/-- Profile lookups for a list of user IDs, one call per ID, one at a time in list order;
returns the outcome of each call and the world after the last one. -/
def resolveAll {σ : Type} (ext : Externals σ) (client : Client σ) :
    List String → σ → List (Except LookupError String) × σ
  | [], w => ([], w)
  | x :: xs, w =>
    ((getGamertagFromXUID ext client x w).1 ::
        (resolveAll ext client xs (getGamertagFromXUID ext client x w).2).1,
      (resolveAll ext client xs (getGamertagFromXUID ext client x w).2).2)

/-- The client both operations use after lines 28-31. -/
def effectiveClient {σ : Type} (ext : Externals σ) (conf : PublishConfig σ)
    (src : TokenSource σ) : Client σ :=
  ext.SetTransport (conf.Client.getD ext.defaultClient) src

/-- The search call of lines 43 and 95. -/
def searchCall {σ : Type} (ext : Externals σ) (conf : PublishConfig σ)
    (src : TokenSource σ) (w : σ) : Except String (List ActivityHandle) × σ :=
  ext.Search { Client := effectiveClient ext conf src, SocialGroup := SocialGroupPeople }
    src serviceConfigUUID w

/-- The same collaborators, except that the search hands over only the records that
satisfy `p`. -/
def withSearchFilter {σ : Type} (ext : Externals σ) (p : ActivityHandle → Bool) :
    Externals σ :=
  { ext with
    Search := fun f src id w =>
      match ext.Search f src id w with
      | (.ok acts, w1) => (.ok (acts.filter p), w1)
      | (.error e, w1) => (.error e, w1) }

/-- A success (2xx) HTTP status. -/
def isSuccessStatus (code : Int) : Prop := 200 ≤ code ∧ code < 300

instance (code : Int) : Decidable (isSuccessStatus code) := by
  unfold isSuccessStatus
  infer_instance

/-! ## Lemmas on the loops -/

/-- The constant service configuration ID parses. -/
theorem uuidParse_serviceConfigID :
    uuidParse (goBytes MinecraftServiceConfigID) = .ok serviceConfigUUID := by
  rfl

theorem resolveAll_length {σ : Type} (ext : Externals σ) (client : Client σ) :
    ∀ (xs : List String) (w : σ), (resolveAll ext client xs w).1.length = xs.length
  | [], _ => rfl
  | x :: xs, w => by
    simp [resolveAll, resolveAll_length ext client xs]

theorem onlineLoop_eq {σ : Type} (ext : Externals σ) (client : Client σ) (self : String) :
    ∀ (acts : List ActivityHandle) (acc : List FriendMinecraftStatus) (w : σ),
      onlineLoop ext client self acts acc w =
        (acc ++ List.zipWith statusOf (acts.filter (matchesTarget self))
            (resolveAll ext client
              ((acts.filter (matchesTarget self)).map (fun a => a.OwnerXUID)) w).1,
          (resolveAll ext client
              ((acts.filter (matchesTarget self)).map (fun a => a.OwnerXUID)) w).2) := by
  intro acts
  induction acts with
  | nil => intro acc w; simp [onlineLoop, resolveAll]
  | cons a rest ih =>
    intro acc w
    by_cases h : a.TitleID = MinecraftTitleID ∧ a.OwnerXUID ≠ self
    · have hm : matchesTarget self a = true := by simp [matchesTarget, h]
      rw [onlineLoop, if_pos h]
      simp only [List.filter_cons, hm, if_true, List.map_cons, resolveAll, List.zipWith_cons_cons]
      rw [ih]
      simp [statusOf, List.append_assoc]
    · have hm : matchesTarget self a = false := by simp [matchesTarget, h]
      rw [onlineLoop, if_neg h, ih]
      simp [List.filter_cons, hm]

theorem joinableLoop_eq {σ : Type} (ext : Externals σ) (client : Client σ) (self : String) :
    ∀ (acts : List ActivityHandle) (acc : List FriendMinecraftStatus) (w : σ),
      joinableLoop ext client self acts acc w =
        (acc ++ List.zipWith statusOf
            (acts.filter (fun a => matchesTarget self a && joinable a))
            (resolveAll ext client
              ((acts.filter (fun a => matchesTarget self a && joinable a)).map
                (fun a => a.OwnerXUID)) w).1,
          (resolveAll ext client
              ((acts.filter (fun a => matchesTarget self a && joinable a)).map
                (fun a => a.OwnerXUID)) w).2) := by
  intro acts
  induction acts with
  | nil => intro acc w; simp [joinableLoop, resolveAll]
  | cons a rest ih =>
    intro acc w
    by_cases h : a.TitleID = MinecraftTitleID ∧ a.OwnerXUID ≠ self
    · have hm : matchesTarget self a = true := by simp [matchesTarget, h]
      by_cases hj : joinable a = true
      · have hj2 : (match a.RelatedInfo with
            | none => false
            | some info => !info.Closed) = true := hj
        rw [joinableLoop, if_pos h]
        simp only [hj2, if_true]
        simp only [List.filter_cons, hm, hj, Bool.and_self, if_true, List.map_cons, resolveAll,
          List.zipWith_cons_cons]
        rw [ih]
        simp [statusOf, List.append_assoc]
      · have hj1 : joinable a = false := by simpa using hj
        have hj2 : (match a.RelatedInfo with
            | none => false
            | some info => !info.Closed) = false := hj1
        rw [joinableLoop, if_pos h]
        simp only [hj2, Bool.false_eq_true, if_false]
        rw [ih]
        simp [List.filter_cons, hm, hj1]
    · have hm : matchesTarget self a = false := by simp [matchesTarget, h]
      rw [joinableLoop, if_neg h, ih]
      simp [List.filter_cons, hm]

/-! ## The three outcomes of each operation -/

theorem JoinableFriends_search_error {σ : Type} (ext : Externals σ) (conf : PublishConfig σ)
    (src : TokenSource σ) (w w1 : σ) (e : String)
    (hs : searchCall ext conf src w = (.error e, w1)) :
    JoinableFriends ext conf src w = (⟨none, some (.searchActivities e)⟩, w1) := by
  unfold searchCall effectiveClient at hs
  simp only [JoinableFriends, uuidParse_serviceConfigID, hs]

theorem JoinableFriends_token_error {σ : Type} (ext : Externals σ) (conf : PublishConfig σ)
    (src : TokenSource σ) (w w1 w2 : σ) (acts : List ActivityHandle) (e : String)
    (hs : searchCall ext conf src w = (.ok acts, w1))
    (ht : src.Token w1 = (.error e, w2)) :
    JoinableFriends ext conf src w = (⟨none, some (.obtainToken e)⟩, w2) := by
  unfold searchCall effectiveClient at hs
  simp only [JoinableFriends, uuidParse_serviceConfigID, hs, ht]

theorem JoinableFriends_ok {σ : Type} (ext : Externals σ) (conf : PublishConfig σ)
    (src : TokenSource σ) (w w1 w2 : σ) (acts : List ActivityHandle) (tok : Token)
    (hs : searchCall ext conf src w = (.ok acts, w1))
    (ht : src.Token w1 = (.ok tok, w2)) :
    JoinableFriends ext conf src w =
      (⟨some (List.zipWith statusOf
          (acts.filter (fun a => matchesTarget tok.XUID a && joinable a))
          (resolveAll ext (effectiveClient ext conf src)
            ((acts.filter (fun a => matchesTarget tok.XUID a && joinable a)).map
              (fun a => a.OwnerXUID)) w2).1), none⟩,
        (resolveAll ext (effectiveClient ext conf src)
            ((acts.filter (fun a => matchesTarget tok.XUID a && joinable a)).map
              (fun a => a.OwnerXUID)) w2).2) := by
  unfold searchCall at hs
  unfold effectiveClient at hs ⊢
  simp only [JoinableFriends, uuidParse_serviceConfigID, hs, ht, joinableLoop_eq,
    List.nil_append]

theorem OnlineFriends_search_error {σ : Type} (ext : Externals σ) (conf : PublishConfig σ)
    (src : TokenSource σ) (w w1 : σ) (e : String)
    (hs : searchCall ext conf src w = (.error e, w1)) :
    OnlineFriends ext conf src w = (⟨none, some (.searchActivities e)⟩, w1) := by
  unfold searchCall effectiveClient at hs
  simp only [OnlineFriends, uuidParse_serviceConfigID, hs]

theorem OnlineFriends_token_error {σ : Type} (ext : Externals σ) (conf : PublishConfig σ)
    (src : TokenSource σ) (w w1 w2 : σ) (acts : List ActivityHandle) (e : String)
    (hs : searchCall ext conf src w = (.ok acts, w1))
    (ht : src.Token w1 = (.error e, w2)) :
    OnlineFriends ext conf src w = (⟨none, some (.obtainToken e)⟩, w2) := by
  unfold searchCall effectiveClient at hs
  simp only [OnlineFriends, uuidParse_serviceConfigID, hs, ht]

theorem OnlineFriends_ok {σ : Type} (ext : Externals σ) (conf : PublishConfig σ)
    (src : TokenSource σ) (w w1 w2 : σ) (acts : List ActivityHandle) (tok : Token)
    (hs : searchCall ext conf src w = (.ok acts, w1))
    (ht : src.Token w1 = (.ok tok, w2)) :
    OnlineFriends ext conf src w =
      (⟨some (List.zipWith statusOf (acts.filter (matchesTarget tok.XUID))
          (resolveAll ext (effectiveClient ext conf src)
            ((acts.filter (matchesTarget tok.XUID)).map (fun a => a.OwnerXUID)) w2).1), none⟩,
        (resolveAll ext (effectiveClient ext conf src)
            ((acts.filter (matchesTarget tok.XUID)).map (fun a => a.OwnerXUID)) w2).2) := by
  unfold searchCall at hs
  unfold effectiveClient at hs ⊢
  simp only [OnlineFriends, uuidParse_serviceConfigID, hs, ht, onlineLoop_eq,
    List.nil_append]

/-! ## Lemmas on the assembled list and on a filtered search -/

theorem zipWith_statusOf_getElem :
    ∀ (inc : List ActivityHandle) (rs : List (Except LookupError String)) (i : Nat)
      (a : ActivityHandle) (r : Except LookupError String),
      inc[i]? = some a → rs[i]? = some r →
      (List.zipWith statusOf inc rs)[i]? = some (statusOf a r)
  | [], _, _, _, _ => by simp
  | _ :: _, [], _, _, _ => by simp
  | a0 :: inc, r0 :: rs, 0, a, r => by
    intro ha hr
    simp only [List.getElem?_cons_zero, Option.some.injEq] at ha hr
    simp [ha, hr]
  | a0 :: inc, r0 :: rs, i + 1, a, r => by
    intro ha hr
    simp only [List.getElem?_cons_succ] at ha hr
    simpa using zipWith_statusOf_getElem inc rs i a r ha hr

theorem forall2_zipWith_statusOf (P : ActivityHandle → Prop) :
    ∀ (inc : List ActivityHandle) (rs : List (Except LookupError String)),
      (∀ a ∈ inc, P a) → rs.length = inc.length →
      List.Forall₂ (fun e a => P a ∧ e.XUID = a.OwnerXUID ∧ e.TitleID = a.TitleID)
        (List.zipWith statusOf inc rs) inc
  | [], _, _, _ => by simp
  | a :: inc, [], _, h => by simp at h
  | a :: inc, r :: rs, hP, h => by
    simp only [List.length_cons, Nat.add_right_cancel_iff] at h
    simp only [List.zipWith_cons_cons]
    refine List.Forall₂.cons ⟨hP a (List.mem_cons_self _ _), rfl, rfl⟩ ?_
    exact forall2_zipWith_statusOf P inc rs
      (fun b hb => hP b (List.mem_cons_of_mem _ hb)) h

theorem resolveAll_withSearchFilter {σ : Type} (ext : Externals σ)
    (p : ActivityHandle → Bool) (client : Client σ) :
    ∀ (xs : List String) (w : σ),
      resolveAll (withSearchFilter ext p) client xs w = resolveAll ext client xs w
  | [], _ => rfl
  | x :: xs, w => by
    have h : ∀ v, getGamertagFromXUID (withSearchFilter ext p) client x v =
        getGamertagFromXUID ext client x v := fun _ => rfl
    simp only [resolveAll, h, resolveAll_withSearchFilter ext p client xs]

theorem searchCall_withSearchFilter_ok {σ : Type} (ext : Externals σ)
    (p : ActivityHandle → Bool) (conf : PublishConfig σ) (src : TokenSource σ) (w w1 : σ)
    (acts : List ActivityHandle) (hs : searchCall ext conf src w = (.ok acts, w1)) :
    searchCall (withSearchFilter ext p) conf src w = (.ok (acts.filter p), w1) := by
  unfold searchCall effectiveClient at hs
  simp only [searchCall, effectiveClient, withSearchFilter, hs]

theorem searchCall_withSearchFilter_error {σ : Type} (ext : Externals σ)
    (p : ActivityHandle → Bool) (conf : PublishConfig σ) (src : TokenSource σ) (w w1 : σ)
    (e : String) (hs : searchCall ext conf src w = (.error e, w1)) :
    searchCall (withSearchFilter ext p) conf src w = (.error e, w1) := by
  unfold searchCall effectiveClient at hs
  simp only [searchCall, effectiveClient, withSearchFilter, hs]

theorem filter_matchesTarget_joinable (self : String) (acts : List ActivityHandle) :
    (acts.filter joinable).filter (matchesTarget self) =
      acts.filter (fun a => matchesTarget self a && joinable a) := by
  rw [List.filter_filter]

theorem resolveAll_of_deterministic {σ : Type} (ext : Externals σ) (client : Client σ)
    (f : String → Except LookupError String)
    (hf : ∀ x v, (getGamertagFromXUID ext client x v).1 = f x) :
    ∀ (xs : List String) (w : σ), (resolveAll ext client xs w).1 = xs.map f
  | [], _ => rfl
  | x :: xs, w => by
    simp [resolveAll, hf, resolveAll_of_deterministic ext client f hf xs]

theorem zipWith_statusOf_map (f : String → Except LookupError String) :
    ∀ (inc : List ActivityHandle),
      List.zipWith statusOf inc ((inc.map (fun a => a.OwnerXUID)).map f) =
        inc.map (fun a => statusOf a (f a.OwnerXUID))
  | [] => rfl
  | a :: inc => by
    have ih := zipWith_statusOf_map f inc
    simp only [List.map_cons, List.zipWith_cons_cons, ih]


theorem filter_matchesTarget_idem (self : String) (acts : List ActivityHandle) :
    (acts.filter (matchesTarget self)).filter (matchesTarget self) =
      acts.filter (matchesTarget self) := by
  rw [List.filter_filter]
  congr 1
  funext a
  cases matchesTarget self a <;> rfl

theorem filter_matchesTarget_joinable_idem (self : String) (acts : List ActivityHandle) :
    (acts.filter (matchesTarget self)).filter (fun a => matchesTarget self a && joinable a) =
      acts.filter (fun a => matchesTarget self a && joinable a) := by
  rw [List.filter_filter]
  congr 1
  funext a
  cases matchesTarget self a <;> cases joinable a <;> rfl

theorem filter_joinable_of_matches (self : String) (acts : List ActivityHandle) :
    (acts.filter (matchesTarget self)).filter joinable =
      acts.filter (fun a => matchesTarget self a && joinable a) := by
  rw [List.filter_filter]
  congr 1
  funext a
  cases matchesTarget self a <;> cases joinable a <;> rfl

/-! ## Error outcomes -/

/-- C5: both operations fail exactly when the search fails or the token cannot be obtained.
A failed search gives the search error and a nil list, whatever the token source would
do; a failed token after a successful search gives the token error and a nil list; when
both succeed the error is nil and the list is not nil, whatever the profile lookups do. -/
theorem C5_error_iff_search_or_token_fails {σ : Type} (ext : Externals σ)
    (conf : PublishConfig σ) (src : TokenSource σ) (w : σ) :
    (∀ e w1, searchCall ext conf src w = (.error e, w1) →
      JoinableFriends ext conf src w = (⟨none, some (.searchActivities e)⟩, w1) ∧
      OnlineFriends ext conf src w = (⟨none, some (.searchActivities e)⟩, w1)) ∧
    (∀ acts w1 e w2, searchCall ext conf src w = (.ok acts, w1) →
      src.Token w1 = (.error e, w2) →
      JoinableFriends ext conf src w = (⟨none, some (.obtainToken e)⟩, w2) ∧
      OnlineFriends ext conf src w = (⟨none, some (.obtainToken e)⟩, w2)) ∧
    (∀ acts w1 tok w2, searchCall ext conf src w = (.ok acts, w1) →
      src.Token w1 = (.ok tok, w2) →
      (∃ l, (JoinableFriends ext conf src w).1 = ⟨some l, none⟩) ∧
      (∃ l, (OnlineFriends ext conf src w).1 = ⟨some l, none⟩)) ∧
    ((JoinableFriends ext conf src w).1.err ≠ none ↔
      ((∃ e, (searchCall ext conf src w).1 = .error e) ∨
       (∃ acts e, (searchCall ext conf src w).1 = .ok acts ∧
          (src.Token (searchCall ext conf src w).2).1 = .error e))) ∧
    ((OnlineFriends ext conf src w).1.err ≠ none ↔
      ((∃ e, (searchCall ext conf src w).1 = .error e) ∨
       (∃ acts e, (searchCall ext conf src w).1 = .ok acts ∧
          (src.Token (searchCall ext conf src w).2).1 = .error e))) := by
  refine ⟨fun e w1 hs => ⟨JoinableFriends_search_error ext conf src w w1 e hs,
      OnlineFriends_search_error ext conf src w w1 e hs⟩,
    fun acts w1 e w2 hs ht => ⟨JoinableFriends_token_error ext conf src w w1 w2 acts e hs ht,
      OnlineFriends_token_error ext conf src w w1 w2 acts e hs ht⟩,
    fun acts w1 tok w2 hs ht => ⟨⟨_, by rw [JoinableFriends_ok ext conf src w w1 w2 acts tok hs ht]⟩,
      ⟨_, by rw [OnlineFriends_ok ext conf src w w1 w2 acts tok hs ht]⟩⟩, ?_, ?_⟩
  · rcases hs : searchCall ext conf src w with ⟨r, w1⟩
    cases r with
    | error e =>
      rw [JoinableFriends_search_error ext conf src w w1 e hs]
      simp
    | ok acts =>
      rcases ht : src.Token w1 with ⟨t, w2⟩
      cases t with
      | error e =>
        rw [JoinableFriends_token_error ext conf src w w1 w2 acts e hs ht]
        simp [ht]
      | ok tok =>
        rw [JoinableFriends_ok ext conf src w w1 w2 acts tok hs ht]
        simp [ht]
  · rcases hs : searchCall ext conf src w with ⟨r, w1⟩
    cases r with
    | error e =>
      rw [OnlineFriends_search_error ext conf src w w1 e hs]
      simp
    | ok acts =>
      rcases ht : src.Token w1 with ⟨t, w2⟩
      cases t with
      | error e =>
        rw [OnlineFriends_token_error ext conf src w w1 w2 acts e hs ht]
        simp [ht]
      | ok tok =>
        rw [OnlineFriends_ok ext conf src w w1 w2 acts tok hs ht]
        simp [ht]

/-- C5 at concrete inputs: a search that fails next to a token source that would fail too
(the search error comes back), a token failure after a successful search, and a run in
which a profile lookup fails and the operations succeed all the same. -/
theorem C5_error_iff_search_or_token_fails_witness :
    (JoinableFriends (demoExt (.error "timeout")) demoConf (demoSrc (.error "expired")) [] =
        (⟨none, some (.searchActivities "timeout")⟩, ["search"]) ∧
      OnlineFriends (demoExt (.error "timeout")) demoConf (demoSrc (.error "expired")) [] =
        (⟨none, some (.searchActivities "timeout")⟩, ["search"])) ∧
    (JoinableFriends (demoExt (.ok mixedActivities)) demoConf (demoSrc (.error "expired")) [] =
        (⟨none, some (.obtainToken "expired")⟩, ["search"]) ∧
      OnlineFriends (demoExt (.ok mixedActivities)) demoConf (demoSrc (.error "expired")) [] =
        (⟨none, some (.obtainToken "expired")⟩, ["search"])) ∧
    ((∃ l, (JoinableFriends (demoExt (.ok mixedActivities)) demoConf
        (demoSrc (.ok ⟨"B"⟩)) []).1 = ⟨some l, none⟩) ∧
      (∃ l, (OnlineFriends (demoExt (.ok mixedActivities)) demoConf
        (demoSrc (.ok ⟨"B"⟩)) []).1 = ⟨some l, none⟩)) :=
  ⟨(C5_error_iff_search_or_token_fails (demoExt (.error "timeout")) demoConf
      (demoSrc (.error "expired")) []).1 "timeout" ["search"] rfl,
    (C5_error_iff_search_or_token_fails (demoExt (.ok mixedActivities)) demoConf
      (demoSrc (.error "expired")) []).2.1 mixedActivities ["search"] "expired" ["search"]
      rfl rfl,
    (C5_error_iff_search_or_token_fails (demoExt (.ok mixedActivities)) demoConf
      (demoSrc (.ok ⟨"B"⟩)) []).2.2.1 mixedActivities ["search"] ⟨"B"⟩ ["search"] rfl rfl⟩

/-! ## No matching record -/

theorem joinable_eq_false_iff (a : ActivityHandle) :
    joinable a = false ↔ (a.RelatedInfo = none ∨ a.RelatedInfo = some ⟨true⟩) := by
  rcases a with ⟨t, o, ri⟩
  cases ri with
  | none => simp [joinable]
  | some info =>
    rcases info with ⟨c⟩
    cases c <;> simp [joinable]

theorem joinable_eq_true_iff (a : ActivityHandle) :
    joinable a = true ↔ ∃ info, a.RelatedInfo = some info ∧ info.Closed = false := by
  rcases a with ⟨t, o, ri⟩
  cases ri with
  | none => simp [joinable]
  | some info => simp [joinable]

/-- C6: when search and token succeed and no record matches (for JoinableFriends: none is
for the target title, owned by someone else and joinable; for OnlineFriends: none is for
the target title and owned by someone else), the result is the empty non-nil list with a
nil error, and the world is the one the token call left: no profile lookup has run. -/
theorem C6_no_match_gives_empty_list {σ : Type} (ext : Externals σ) (conf : PublishConfig σ)
    (src : TokenSource σ) (w w1 w2 : σ) (acts : List ActivityHandle) (tok : Token)
    (hs : searchCall ext conf src w = (.ok acts, w1))
    (ht : src.Token w1 = (.ok tok, w2)) :
    ((∀ a ∈ acts, a.TitleID ≠ MinecraftTitleID ∨ a.OwnerXUID = tok.XUID ∨
        a.RelatedInfo = none ∨ a.RelatedInfo = some ⟨true⟩) →
      JoinableFriends ext conf src w = (⟨some [], none⟩, w2)) ∧
    ((∀ a ∈ acts, a.TitleID ≠ MinecraftTitleID ∨ a.OwnerXUID = tok.XUID) →
      OnlineFriends ext conf src w = (⟨some [], none⟩, w2)) := by
  constructor
  · intro h
    have hf : acts.filter (fun a => matchesTarget tok.XUID a && joinable a) = [] := by
      rw [List.filter_eq_nil_iff]
      intro a ha
      rcases h a ha with h1 | h1 | h1
      · simp [matchesTarget, h1]
      · simp [matchesTarget, h1]
      · simp [(joinable_eq_false_iff a).2 h1]
    rw [JoinableFriends_ok ext conf src w w1 w2 acts tok hs ht, hf]
    simp [resolveAll]
  · intro h
    have hf : acts.filter (matchesTarget tok.XUID) = [] := by
      rw [List.filter_eq_nil_iff]
      intro a ha
      rcases h a ha with h1 | h1
      · simp [matchesTarget, h1]
      · simp [matchesTarget, h1]
    rw [OnlineFriends_ok ext conf src w w1 w2 acts tok hs ht, hf]
    simp [resolveAll]

/-- C6 at concrete inputs: the log holds the search and no profile request. -/
theorem C6_no_match_gives_empty_list_witness :
    JoinableFriends (demoExt (.ok unjoinableActivities)) demoConf (demoSrc (.ok ⟨"B"⟩)) [] =
      (⟨some [], none⟩, ["search"]) ∧
    OnlineFriends (demoExt (.ok unmatchedActivities)) demoConf (demoSrc (.ok ⟨"B"⟩)) [] =
      (⟨some [], none⟩, ["search"]) ∧
    OnlineFriends (demoExt (.ok [])) demoConf (demoSrc (.ok ⟨"B"⟩)) [] =
      (⟨some [], none⟩, ["search"]) :=
  ⟨(C6_no_match_gives_empty_list (demoExt (.ok unjoinableActivities)) demoConf
      (demoSrc (.ok ⟨"B"⟩)) [] ["search"] ["search"] unjoinableActivities ⟨"B"⟩ rfl rfl).1
      (by decide),
    (C6_no_match_gives_empty_list (demoExt (.ok unmatchedActivities)) demoConf
      (demoSrc (.ok ⟨"B"⟩)) [] ["search"] ["search"] unmatchedActivities ⟨"B"⟩ rfl rfl).2
      (by decide),
    (C6_no_match_gives_empty_list (demoExt (.ok [])) demoConf
      (demoSrc (.ok ⟨"B"⟩)) [] ["search"] ["search"] [] ⟨"B"⟩ rfl rfl).2
      (by simp)⟩

/-! ## The assembled lists -/

/-- C3: when search and token succeed, OnlineFriends returns a nil error and, in
activity-list order, one entry per record that is for the target title and not owned by
the caller, whatever its related info; the entry has the XUID and TitleID of the record
and, as Gamertag, the display name its lookup returned or, if that lookup failed, the
OwnerXUID. -/
theorem C3_online_friends_list {σ : Type} (ext : Externals σ) (conf : PublishConfig σ)
    (src : TokenSource σ) (w w1 w2 : σ) (acts : List ActivityHandle) (tok : Token)
    (hs : searchCall ext conf src w = (.ok acts, w1))
    (ht : src.Token w1 = (.ok tok, w2)) :
    ∃ (l : List FriendMinecraftStatus) (rs : List (Except LookupError String)),
      (OnlineFriends ext conf src w).1 = ⟨some l, none⟩ ∧
      rs = (resolveAll ext (effectiveClient ext conf src)
        ((acts.filter (fun a => decide (a.TitleID = MinecraftTitleID ∧
          a.OwnerXUID ≠ tok.XUID))).map (fun a => a.OwnerXUID)) w2).1 ∧
      l.length = (acts.filter (fun a => decide (a.TitleID = MinecraftTitleID ∧
          a.OwnerXUID ≠ tok.XUID))).length ∧
      rs.length = l.length ∧
      l.map (fun e => (e.XUID, e.TitleID)) =
        (acts.filter (fun a => decide (a.TitleID = MinecraftTitleID ∧
          a.OwnerXUID ≠ tok.XUID))).map (fun a => (a.OwnerXUID, a.TitleID)) ∧
      ∀ (i : Nat) (e : FriendMinecraftStatus), l[i]? = some e →
        (∃ g : String, rs[i]? = some (Except.ok g) ∧ e.Gamertag = g) ∨
        (∃ err : LookupError, rs[i]? = some (Except.error err) ∧ e.Gamertag = e.XUID) := by
  have hfun : (fun a => decide (a.TitleID = MinecraftTitleID ∧ a.OwnerXUID ≠ tok.XUID)) =
      matchesTarget tok.XUID := rfl
  rw [hfun]
  refine ⟨_, _, by rw [OnlineFriends_ok ext conf src w w1 w2 acts tok hs ht], rfl, ?_, ?_, ?_, ?_⟩
  · simp [resolveAll_length]
  · simp [resolveAll_length]
  · generalize hinc : acts.filter (matchesTarget tok.XUID) = inc
    have hlen := resolveAll_length ext (effectiveClient ext conf src)
      (inc.map (fun a => a.OwnerXUID)) w2
    generalize (resolveAll ext (effectiveClient ext conf src)
      (inc.map (fun a => a.OwnerXUID)) w2).1 = rs at hlen
    clear hinc
    induction inc generalizing rs with
    | nil => simp
    | cons a rest ih =>
      cases rs with
      | nil => simp at hlen
      | cons r rs =>
        simp only [List.map_cons, List.length_cons, Nat.add_right_cancel_iff] at hlen
        simp [statusOf, ih rs hlen]
  · generalize acts.filter (matchesTarget tok.XUID) = inc
    generalize (resolveAll ext (effectiveClient ext conf src)
      (inc.map (fun a => a.OwnerXUID)) w2).1 = rs
    induction inc generalizing rs with
    | nil => simp
    | cons a rest ih =>
      cases rs with
      | nil => simp
      | cons r rs =>
        intro i
        cases i with
        | zero =>
          intro e he
          simp only [List.zipWith_cons_cons, List.getElem?_cons_zero, Option.some.injEq] at he
          subst he
          cases r with
          | ok g => left; exact ⟨g, by simp, rfl⟩
          | error err => right; exact ⟨err, by simp, rfl⟩
        | succ i =>
          intro e he
          simp only [List.zipWith_cons_cons, List.getElem?_cons_succ] at he
          simpa using ih rs i e he

/-- C3 at a concrete input: five matching records out of seven, two of them not joinable,
two with a failed lookup. -/
theorem C3_online_friends_list_witness :
    ∃ (l : List FriendMinecraftStatus) (rs : List (Except LookupError String)),
      (OnlineFriends (demoExt (.ok mixedActivities)) demoConf (demoSrc (.ok ⟨"B"⟩)) []).1 =
        ⟨some l, none⟩ ∧
      rs = (resolveAll (demoExt (.ok mixedActivities))
        (effectiveClient (demoExt (.ok mixedActivities)) demoConf (demoSrc (.ok ⟨"B"⟩)))
        ((mixedActivities.filter (fun a => decide (a.TitleID = MinecraftTitleID ∧
          a.OwnerXUID ≠ (Token.mk "B").XUID))).map (fun a => a.OwnerXUID)) ["search"]).1 ∧
      l.length = (mixedActivities.filter (fun a => decide (a.TitleID = MinecraftTitleID ∧
          a.OwnerXUID ≠ (Token.mk "B").XUID))).length ∧
      rs.length = l.length ∧
      l.map (fun e => (e.XUID, e.TitleID)) =
        (mixedActivities.filter (fun a => decide (a.TitleID = MinecraftTitleID ∧
          a.OwnerXUID ≠ (Token.mk "B").XUID))).map (fun a => (a.OwnerXUID, a.TitleID)) ∧
      ∀ (i : Nat) (e : FriendMinecraftStatus), l[i]? = some e →
        (∃ g : String, rs[i]? = some (Except.ok g) ∧ e.Gamertag = g) ∨
        (∃ err : LookupError, rs[i]? = some (Except.error err) ∧ e.Gamertag = e.XUID) :=
  C3_online_friends_list (demoExt (.ok mixedActivities)) demoConf (demoSrc (.ok ⟨"B"⟩))
    [] ["search"] ["search"] mixedActivities ⟨"B"⟩ rfl rfl

/-! ## Lookups, fallback and filters -/

/-- C9: the profile lookups of either operation are exactly the lookups for the
OwnerXUIDs of the included records, one call per record, one at a time in activity-list
order, each started in the world the previous one left; the i-th entry is built from the
i-th lookup. When the search or the token fails, the world is the one that call left: no
lookup has run. The world type is arbitrary, so a world that records every call records
exactly these. -/
theorem C9_lookups_follow_included_records {σ : Type} (ext : Externals σ)
    (conf : PublishConfig σ) (src : TokenSource σ) (w : σ) :
    (∀ e w1, searchCall ext conf src w = (.error e, w1) →
      (JoinableFriends ext conf src w).2 = w1 ∧ (OnlineFriends ext conf src w).2 = w1) ∧
    (∀ acts w1 e w2, searchCall ext conf src w = (.ok acts, w1) →
      src.Token w1 = (.error e, w2) →
      (JoinableFriends ext conf src w).2 = w2 ∧ (OnlineFriends ext conf src w).2 = w2) ∧
    (∀ acts w1 tok w2, searchCall ext conf src w = (.ok acts, w1) →
      src.Token w1 = (.ok tok, w2) →
      ∀ incJ incO : List ActivityHandle,
        incJ = acts.filter (fun a => decide (a.TitleID = MinecraftTitleID ∧
          a.OwnerXUID ≠ tok.XUID) && joinable a) →
        incO = acts.filter (fun a => decide (a.TitleID = MinecraftTitleID ∧
          a.OwnerXUID ≠ tok.XUID)) →
        JoinableFriends ext conf src w =
          (⟨some (List.zipWith statusOf incJ
              (resolveAll ext (effectiveClient ext conf src)
                (incJ.map (fun a => a.OwnerXUID)) w2).1), none⟩,
            (resolveAll ext (effectiveClient ext conf src)
              (incJ.map (fun a => a.OwnerXUID)) w2).2) ∧
        (resolveAll ext (effectiveClient ext conf src)
          (incJ.map (fun a => a.OwnerXUID)) w2).1.length = incJ.length ∧
        OnlineFriends ext conf src w =
          (⟨some (List.zipWith statusOf incO
              (resolveAll ext (effectiveClient ext conf src)
                (incO.map (fun a => a.OwnerXUID)) w2).1), none⟩,
            (resolveAll ext (effectiveClient ext conf src)
              (incO.map (fun a => a.OwnerXUID)) w2).2) ∧
        (resolveAll ext (effectiveClient ext conf src)
          (incO.map (fun a => a.OwnerXUID)) w2).1.length = incO.length) := by
  refine ⟨fun e w1 hs => ?_, fun acts w1 e w2 hs ht => ?_, fun acts w1 tok w2 hs ht => ?_⟩
  · rw [JoinableFriends_search_error ext conf src w w1 e hs,
      OnlineFriends_search_error ext conf src w w1 e hs]
    exact ⟨rfl, rfl⟩
  · rw [JoinableFriends_token_error ext conf src w w1 w2 acts e hs ht,
      OnlineFriends_token_error ext conf src w w1 w2 acts e hs ht]
    exact ⟨rfl, rfl⟩
  · intro incJ incO hJ hO
    subst hJ hO
    refine ⟨JoinableFriends_ok ext conf src w w1 w2 acts tok hs ht, ?_,
      OnlineFriends_ok ext conf src w w1 w2 acts tok hs ht, ?_⟩
    · simp [resolveAll_length]
    · simp [resolveAll_length]

/-- C9 at concrete inputs, in a world that logs every request: JoinableFriends sends the
profile requests for A, E, A (A twice: no caching), OnlineFriends those for A, D, E, Z, A,
and nothing is sent for the caller B or for C of another title; a failed search or token
leaves only the search in the log. -/
theorem C9_lookups_follow_included_records_witness :
    ((JoinableFriends (demoExt (.error "timeout")) demoConf (demoSrc (.ok ⟨"B"⟩)) []).2 =
        ["search"] ∧
      (OnlineFriends (demoExt (.error "timeout")) demoConf (demoSrc (.ok ⟨"B"⟩)) []).2 =
        ["search"]) ∧
    ((JoinableFriends (demoExt (.ok mixedActivities)) demoConf
        (demoSrc (.error "expired")) []).2 = ["search"] ∧
      (OnlineFriends (demoExt (.ok mixedActivities)) demoConf
        (demoSrc (.error "expired")) []).2 = ["search"]) ∧
    (JoinableFriends (demoExt (.ok mixedActivities)) demoConf (demoSrc (.ok ⟨"B"⟩)) [] =
        (⟨some [⟨"Alice", "A", MinecraftTitleID⟩, ⟨"E", "E", MinecraftTitleID⟩,
            ⟨"Alice", "A", MinecraftTitleID⟩], none⟩,
          ["search", profileURL "A", profileURL "E", profileURL "A"]) ∧
      OnlineFriends (demoExt (.ok mixedActivities)) demoConf (demoSrc (.ok ⟨"B"⟩)) [] =
        (⟨some [⟨"Alice", "A", MinecraftTitleID⟩, ⟨"D", "D", MinecraftTitleID⟩,
            ⟨"E", "E", MinecraftTitleID⟩, ⟨"Z", "Z", MinecraftTitleID⟩,
            ⟨"Alice", "A", MinecraftTitleID⟩], none⟩,
          ["search", profileURL "A", profileURL "D", profileURL "E", profileURL "Z",
            profileURL "A"])) :=
  ⟨(C9_lookups_follow_included_records (demoExt (.error "timeout")) demoConf
      (demoSrc (.ok ⟨"B"⟩)) []).1 "timeout" ["search"] rfl,
    (C9_lookups_follow_included_records (demoExt (.ok mixedActivities)) demoConf
      (demoSrc (.error "expired")) []).2.1 mixedActivities ["search"] "expired" ["search"]
      rfl rfl,
    ((C9_lookups_follow_included_records (demoExt (.ok mixedActivities)) demoConf
      (demoSrc (.ok ⟨"B"⟩)) []).2.2 mixedActivities ["search"] ⟨"B"⟩ ["search"] rfl rfl
      _ _ rfl rfl).1,
    ((C9_lookups_follow_included_records (demoExt (.ok mixedActivities)) demoConf
      (demoSrc (.ok ⟨"B"⟩)) []).2.2 mixedActivities ["search"] ⟨"B"⟩ ["search"] rfl rfl
      _ _ rfl rfl).2.2.1⟩

/-- C4: when search and token succeed, both operations return a nil error and one entry
per included record; if the lookup for the i-th included record fails, with whatever
error, the i-th entry is still there and its Gamertag is the record's raw OwnerXUID. -/
theorem C4_lookup_failure_falls_back_to_xuid {σ : Type} (ext : Externals σ)
    (conf : PublishConfig σ) (src : TokenSource σ) (w w1 w2 : σ)
    (acts : List ActivityHandle) (tok : Token)
    (hs : searchCall ext conf src w = (.ok acts, w1))
    (ht : src.Token w1 = (.ok tok, w2))
    (incJ incO : List ActivityHandle)
    (hJ : incJ = acts.filter (fun a => decide (a.TitleID = MinecraftTitleID ∧
      a.OwnerXUID ≠ tok.XUID) && joinable a))
    (hO : incO = acts.filter (fun a => decide (a.TitleID = MinecraftTitleID ∧
      a.OwnerXUID ≠ tok.XUID))) :
    ∃ lj lo : List FriendMinecraftStatus,
      (JoinableFriends ext conf src w).1 = ⟨some lj, none⟩ ∧
      (OnlineFriends ext conf src w).1 = ⟨some lo, none⟩ ∧
      lj.length = incJ.length ∧ lo.length = incO.length ∧
      (∀ (i : Nat) (a : ActivityHandle) (err : LookupError), incJ[i]? = some a →
        (resolveAll ext (effectiveClient ext conf src)
          (incJ.map (fun a => a.OwnerXUID)) w2).1[i]? = some (Except.error err) →
        lj[i]? = some ⟨a.OwnerXUID, a.OwnerXUID, a.TitleID⟩) ∧
      (∀ (i : Nat) (a : ActivityHandle) (err : LookupError), incO[i]? = some a →
        (resolveAll ext (effectiveClient ext conf src)
          (incO.map (fun a => a.OwnerXUID)) w2).1[i]? = some (Except.error err) →
        lo[i]? = some ⟨a.OwnerXUID, a.OwnerXUID, a.TitleID⟩) := by
  have hJ2 : incJ = acts.filter (fun a => matchesTarget tok.XUID a && joinable a) := hJ
  have hO2 : incO = acts.filter (matchesTarget tok.XUID) := hO
  clear hJ hO
  subst hJ2 hO2
  refine ⟨_, _, by rw [JoinableFriends_ok ext conf src w w1 w2 acts tok hs ht],
    by rw [OnlineFriends_ok ext conf src w w1 w2 acts tok hs ht], ?_, ?_, ?_, ?_⟩
  · simp [resolveAll_length]
  · simp [resolveAll_length]
  · intro i a err ha hr
    exact zipWith_statusOf_getElem _ _ i a _ ha hr
  · intro i a err ha hr
    exact zipWith_statusOf_getElem _ _ i a _ ha hr

/-- C4 at concrete inputs: the lookup for owner E gets a 404, the one for Z fails in
transport; their entries carry the raw OwnerXUID, the later record A is still processed. -/
theorem C4_lookup_failure_falls_back_to_xuid_witness :
    ∃ lj lo : List FriendMinecraftStatus,
      (JoinableFriends (demoExt (.ok mixedActivities)) demoConf (demoSrc (.ok ⟨"B"⟩)) []).1 =
        ⟨some lj, none⟩ ∧
      (OnlineFriends (demoExt (.ok mixedActivities)) demoConf (demoSrc (.ok ⟨"B"⟩)) []).1 =
        ⟨some lo, none⟩ ∧
      lj.length = 3 ∧ lo.length = 5 ∧
      lj[1]? = some ⟨"E", "E", MinecraftTitleID⟩ ∧
      lo[3]? = some ⟨"Z", "Z", MinecraftTitleID⟩ := by
  obtain ⟨lj, lo, h1, h2, h3, h4, h5, h6⟩ :=
    C4_lookup_failure_falls_back_to_xuid (demoExt (.ok mixedActivities)) demoConf
      (demoSrc (.ok ⟨"B"⟩)) [] ["search"] ["search"] mixedActivities ⟨"B"⟩ rfl rfl _ _ rfl rfl
  exact ⟨lj, lo, h1, h2, h3, h4,
    h5 1 ⟨MinecraftTitleID, "E", some ⟨false⟩⟩ (.unexpectedStatusCode 404) rfl rfl,
    h6 3 ⟨MinecraftTitleID, "Z", none⟩ (.executeRequest "connection refused") rfl rfl⟩

/-- C1: when search and token succeed, the entries of either result stand, one to one and
in order, against a sublist of the activity list all of whose records are for the target
title and not owned by the caller, each entry carrying the XUID and TitleID of its record;
and dropping every other record from what the search returns changes neither result. -/
theorem C1_entries_only_for_target_title_and_not_self {σ : Type} (ext : Externals σ)
    (conf : PublishConfig σ) (src : TokenSource σ) (w w1 w2 : σ)
    (acts : List ActivityHandle) (tok : Token)
    (hs : searchCall ext conf src w = (.ok acts, w1))
    (ht : src.Token w1 = (.ok tok, w2)) :
    ∃ (lj lo : List FriendMinecraftStatus) (subJ subO : List ActivityHandle),
      (JoinableFriends ext conf src w).1.friends = some lj ∧
      (OnlineFriends ext conf src w).1.friends = some lo ∧
      subJ.Sublist acts ∧ subO.Sublist acts ∧
      List.Forall₂ (fun e a => (a.TitleID = MinecraftTitleID ∧ a.OwnerXUID ≠ tok.XUID) ∧
        e.XUID = a.OwnerXUID ∧ e.TitleID = a.TitleID) lj subJ ∧
      List.Forall₂ (fun e a => (a.TitleID = MinecraftTitleID ∧ a.OwnerXUID ≠ tok.XUID) ∧
        e.XUID = a.OwnerXUID ∧ e.TitleID = a.TitleID) lo subO ∧
      JoinableFriends (withSearchFilter ext (fun a => decide (a.TitleID = MinecraftTitleID ∧
        a.OwnerXUID ≠ tok.XUID))) conf src w = JoinableFriends ext conf src w ∧
      OnlineFriends (withSearchFilter ext (fun a => decide (a.TitleID = MinecraftTitleID ∧
        a.OwnerXUID ≠ tok.XUID))) conf src w = OnlineFriends ext conf src w := by
  have hfun : (fun a => decide (a.TitleID = MinecraftTitleID ∧ a.OwnerXUID ≠ tok.XUID)) =
      matchesTarget tok.XUID := rfl
  rw [hfun]
  have hcl : effectiveClient (withSearchFilter ext (matchesTarget tok.XUID)) conf src =
      effectiveClient ext conf src := rfl
  have hs2 := searchCall_withSearchFilter_ok ext (matchesTarget tok.XUID) conf src w w1 acts hs
  refine ⟨_, _, acts.filter (fun a => matchesTarget tok.XUID a && joinable a),
    acts.filter (matchesTarget tok.XUID),
    by rw [JoinableFriends_ok ext conf src w w1 w2 acts tok hs ht],
    by rw [OnlineFriends_ok ext conf src w w1 w2 acts tok hs ht],
    List.filter_sublist _, List.filter_sublist _, ?_, ?_, ?_, ?_⟩
  · apply forall2_zipWith_statusOf
    · intro a ha
      have h := (List.mem_filter.1 ha).2
      simp only [matchesTarget, Bool.and_eq_true, decide_eq_true_eq] at h
      exact h.1
    · simp [resolveAll_length]
  · apply forall2_zipWith_statusOf
    · intro a ha
      have h := (List.mem_filter.1 ha).2
      simp only [matchesTarget, decide_eq_true_eq] at h
      exact h
    · simp [resolveAll_length]
  · rw [JoinableFriends_ok (withSearchFilter ext (matchesTarget tok.XUID)) conf src w w1 w2
        _ tok hs2 ht,
      JoinableFriends_ok ext conf src w w1 w2 acts tok hs ht, hcl,
      filter_matchesTarget_joinable_idem, resolveAll_withSearchFilter]
  · rw [OnlineFriends_ok (withSearchFilter ext (matchesTarget tok.XUID)) conf src w w1 w2
        _ tok hs2 ht,
      OnlineFriends_ok ext conf src w w1 w2 acts tok hs ht, hcl,
      filter_matchesTarget_idem, resolveAll_withSearchFilter]

/-- C1 at the scenario: caller B, activities A (open), B (own), C (another title); both
results have the one entry for A. -/
theorem C1_entries_only_for_target_title_and_not_self_witness :
    (∃ (lj lo : List FriendMinecraftStatus) (subJ subO : List ActivityHandle),
      (JoinableFriends (demoExt (.ok scenarioActivities)) demoConf
        (demoSrc (.ok ⟨"B"⟩)) []).1.friends = some lj ∧
      (OnlineFriends (demoExt (.ok scenarioActivities)) demoConf
        (demoSrc (.ok ⟨"B"⟩)) []).1.friends = some lo ∧
      subJ.Sublist scenarioActivities ∧ subO.Sublist scenarioActivities ∧
      List.Forall₂ (fun e a => (a.TitleID = MinecraftTitleID ∧ a.OwnerXUID ≠ "B") ∧
        e.XUID = a.OwnerXUID ∧ e.TitleID = a.TitleID) lj subJ ∧
      List.Forall₂ (fun e a => (a.TitleID = MinecraftTitleID ∧ a.OwnerXUID ≠ "B") ∧
        e.XUID = a.OwnerXUID ∧ e.TitleID = a.TitleID) lo subO ∧
      JoinableFriends (withSearchFilter (demoExt (.ok scenarioActivities))
          (fun a => decide (a.TitleID = MinecraftTitleID ∧ a.OwnerXUID ≠ "B")))
          demoConf (demoSrc (.ok ⟨"B"⟩)) [] =
        JoinableFriends (demoExt (.ok scenarioActivities)) demoConf
          (demoSrc (.ok ⟨"B"⟩)) [] ∧
      OnlineFriends (withSearchFilter (demoExt (.ok scenarioActivities))
          (fun a => decide (a.TitleID = MinecraftTitleID ∧ a.OwnerXUID ≠ "B")))
          demoConf (demoSrc (.ok ⟨"B"⟩)) [] =
        OnlineFriends (demoExt (.ok scenarioActivities)) demoConf
          (demoSrc (.ok ⟨"B"⟩)) []) ∧
    (OnlineFriends (demoExt (.ok scenarioActivities)) demoConf
        (demoSrc (.ok ⟨"B"⟩)) []).1.friends = some [⟨"Alice", "A", MinecraftTitleID⟩] :=
  ⟨C1_entries_only_for_target_title_and_not_self (demoExt (.ok scenarioActivities)) demoConf
      (demoSrc (.ok ⟨"B"⟩)) [] ["search"] ["search"] scenarioActivities ⟨"B"⟩ rfl rfl,
    rfl⟩

/-- C2: when search and token succeed, the entries of JoinableFriends stand, one to one
and in order, against exactly those records for the target title and not owned by the
caller whose related info is present and not closed; a matching record whose related info
is missing or closed has no entry. -/
theorem C2_joinable_iff_related_info_open {σ : Type} (ext : Externals σ)
    (conf : PublishConfig σ) (src : TokenSource σ) (w w1 w2 : σ)
    (acts : List ActivityHandle) (tok : Token)
    (hs : searchCall ext conf src w = (.ok acts, w1))
    (ht : src.Token w1 = (.ok tok, w2)) :
    (∃ l : List FriendMinecraftStatus,
      (JoinableFriends ext conf src w).1.friends = some l ∧
      List.Forall₂ (fun e a => e.XUID = a.OwnerXUID ∧ e.TitleID = a.TitleID) l
        ((acts.filter (fun a => decide (a.TitleID = MinecraftTitleID ∧
          a.OwnerXUID ≠ tok.XUID))).filter joinable)) ∧
    (∀ a : ActivityHandle,
      joinable a = true ↔ ∃ info, a.RelatedInfo = some info ∧ info.Closed = false) ∧
    (∀ a : ActivityHandle,
      joinable a = false ↔ (a.RelatedInfo = none ∨ a.RelatedInfo = some ⟨true⟩)) := by
  have hfun : (fun a => decide (a.TitleID = MinecraftTitleID ∧ a.OwnerXUID ≠ tok.XUID)) =
      matchesTarget tok.XUID := rfl
  rw [hfun, filter_joinable_of_matches]
  refine ⟨⟨_, by rw [JoinableFriends_ok ext conf src w w1 w2 acts tok hs ht], ?_⟩,
    joinable_eq_true_iff, joinable_eq_false_iff⟩
  have h := forall2_zipWith_statusOf (fun _ => True)
    (acts.filter (fun a => matchesTarget tok.XUID a && joinable a))
    (resolveAll ext (effectiveClient ext conf src)
      ((acts.filter (fun a => matchesTarget tok.XUID a && joinable a)).map
        (fun a => a.OwnerXUID)) w2).1 (fun _ _ => trivial) (by simp [resolveAll_length])
  exact h.imp (fun _ _ h => h.2)

/-- C2 at concrete inputs: of the matching records A, D (closed), E, Z (no related info),
A, the result has entries for A, E, A only. -/
theorem C2_joinable_iff_related_info_open_witness :
    (∃ l : List FriendMinecraftStatus,
      (JoinableFriends (demoExt (.ok mixedActivities)) demoConf
        (demoSrc (.ok ⟨"B"⟩)) []).1.friends = some l ∧
      List.Forall₂
        (fun (e : FriendMinecraftStatus) (a : ActivityHandle) =>
          e.XUID = a.OwnerXUID ∧ e.TitleID = a.TitleID) l
        [⟨MinecraftTitleID, "A", some ⟨false⟩⟩, ⟨MinecraftTitleID, "E", some ⟨false⟩⟩,
          ⟨MinecraftTitleID, "A", some ⟨false⟩⟩]) ∧
    (JoinableFriends (demoExt (.ok mixedActivities)) demoConf
        (demoSrc (.ok ⟨"B"⟩)) []).1.friends =
      some [⟨"Alice", "A", MinecraftTitleID⟩, ⟨"E", "E", MinecraftTitleID⟩,
        ⟨"Alice", "A", MinecraftTitleID⟩] :=
  ⟨(C2_joinable_iff_related_info_open (demoExt (.ok mixedActivities)) demoConf
      (demoSrc (.ok ⟨"B"⟩)) [] ["search"] ["search"] mixedActivities ⟨"B"⟩ rfl rfl).1,
    rfl⟩

/-- C10: JoinableFriends equals, result and final world, OnlineFriends run against a
search that returns the same list without the records whose related info is missing or
closed. When every record for the target title and not owned by the caller is joinable,
the two operations agree. When the outcome of a profile lookup depends on the user ID
alone, the list of JoinableFriends is a sublist, in order, of the list of OnlineFriends. -/
theorem C10_joinable_is_online_on_joinable_records {σ : Type} (ext : Externals σ)
    (conf : PublishConfig σ) (src : TokenSource σ) (w : σ) :
    JoinableFriends ext conf src w =
      OnlineFriends (withSearchFilter ext joinable) conf src w ∧
    (∀ acts w1 tok w2, searchCall ext conf src w = (.ok acts, w1) →
      src.Token w1 = (.ok tok, w2) →
      ((∀ a ∈ acts, a.TitleID = MinecraftTitleID → a.OwnerXUID ≠ tok.XUID →
          joinable a = true) →
        JoinableFriends ext conf src w = OnlineFriends ext conf src w) ∧
      ((∃ f : String → Except LookupError String, ∀ x v,
          (getGamertagFromXUID ext (effectiveClient ext conf src) x v).1 = f x) →
        ∃ lj lo : List FriendMinecraftStatus,
          (JoinableFriends ext conf src w).1.friends = some lj ∧
          (OnlineFriends ext conf src w).1.friends = some lo ∧
          lj.Sublist lo)) := by
  have hcl : effectiveClient (withSearchFilter ext joinable) conf src =
      effectiveClient ext conf src := rfl
  constructor
  · rcases hs : searchCall ext conf src w with ⟨r, w1⟩
    cases r with
    | error e =>
      rw [JoinableFriends_search_error ext conf src w w1 e hs,
        OnlineFriends_search_error (withSearchFilter ext joinable) conf src w w1 e
          (searchCall_withSearchFilter_error ext joinable conf src w w1 e hs)]
    | ok acts =>
      have hs2 := searchCall_withSearchFilter_ok ext joinable conf src w w1 acts hs
      rcases ht : src.Token w1 with ⟨t, w2⟩
      cases t with
      | error e =>
        rw [JoinableFriends_token_error ext conf src w w1 w2 acts e hs ht,
          OnlineFriends_token_error (withSearchFilter ext joinable) conf src w w1 w2 _ e
            hs2 ht]
      | ok tok =>
        rw [JoinableFriends_ok ext conf src w w1 w2 acts tok hs ht,
          OnlineFriends_ok (withSearchFilter ext joinable) conf src w w1 w2 _ tok hs2 ht,
          hcl, filter_matchesTarget_joinable, resolveAll_withSearchFilter]
  · intro acts w1 tok w2 hs ht
    constructor
    · intro hall
      have hf : acts.filter (fun a => matchesTarget tok.XUID a && joinable a) =
          acts.filter (matchesTarget tok.XUID) := by
        apply List.filter_congr
        intro a ha
        by_cases hm : a.TitleID = MinecraftTitleID ∧ a.OwnerXUID ≠ tok.XUID
        · simp [matchesTarget, hm, hall a ha hm.1 hm.2]
        · simp [matchesTarget, hm]
      rw [JoinableFriends_ok ext conf src w w1 w2 acts tok hs ht,
        OnlineFriends_ok ext conf src w w1 w2 acts tok hs ht, hf]
    · rintro ⟨f, hf⟩
      refine ⟨_, _, by rw [JoinableFriends_ok ext conf src w w1 w2 acts tok hs ht],
        by rw [OnlineFriends_ok ext conf src w w1 w2 acts tok hs ht], ?_⟩
      rw [resolveAll_of_deterministic ext _ f hf, resolveAll_of_deterministic ext _ f hf,
        zipWith_statusOf_map, zipWith_statusOf_map, ← filter_joinable_of_matches]
      exact (List.filter_sublist _).map _

/-- The outcome of a lookup in the demo world does not depend on the log. -/
theorem demo_lookup_deterministic (found : Except String (List ActivityHandle))
    (x : String) (v : List String) :
    (getGamertagFromXUID (demoExt found) demoClient x v).1 =
      (getGamertagFromXUID (demoExt found) demoClient x []).1 := by
  simp only [getGamertagFromXUID, demoExt, demoClient]
  split_ifs <;> rfl

/-- C10 at concrete inputs: in the scenario (A open, B the caller, C of another title)
both operations return the single entry for A; on the longer list the lookups depend on
the user ID alone and the joinable list is a sublist of the online list. -/
theorem C10_joinable_is_online_on_joinable_records_witness :
    (JoinableFriends (demoExt (.ok scenarioActivities)) demoConf (demoSrc (.ok ⟨"B"⟩)) [] =
      OnlineFriends (demoExt (.ok scenarioActivities)) demoConf (demoSrc (.ok ⟨"B"⟩)) []) ∧
    (JoinableFriends (demoExt (.ok scenarioActivities)) demoConf (demoSrc (.ok ⟨"B"⟩)) []).1 =
      ⟨some [⟨"Alice", "A", MinecraftTitleID⟩], none⟩ ∧
    (OnlineFriends (demoExt (.ok scenarioActivities)) demoConf (demoSrc (.ok ⟨"B"⟩)) []).1 =
      ⟨some [⟨"Alice", "A", MinecraftTitleID⟩], none⟩ ∧
    (∃ lj lo : List FriendMinecraftStatus,
      (JoinableFriends (demoExt (.ok mixedActivities)) demoConf
        (demoSrc (.ok ⟨"B"⟩)) []).1.friends = some lj ∧
      (OnlineFriends (demoExt (.ok mixedActivities)) demoConf
        (demoSrc (.ok ⟨"B"⟩)) []).1.friends = some lo ∧
      lj.Sublist lo) :=
  ⟨((C10_joinable_is_online_on_joinable_records (demoExt (.ok scenarioActivities)) demoConf
      (demoSrc (.ok ⟨"B"⟩)) []).2 scenarioActivities ["search"] ⟨"B"⟩ ["search"] rfl rfl).1
      (by decide),
    rfl, rfl,
    ((C10_joinable_is_online_on_joinable_records (demoExt (.ok mixedActivities)) demoConf
      (demoSrc (.ok ⟨"B"⟩)) []).2 mixedActivities ["search"] ⟨"B"⟩ ["search"] rfl rfl).2
      ⟨fun x => (getGamertagFromXUID (demoExt (.ok mixedActivities)) demoClient x []).1,
        fun x v => demo_lookup_deterministic _ x v⟩⟩

/-! ## The profile lookup -/

/-- C7, as stated, fails for the status 203: it is a success (2xx) status, the request was
built and sent without transport failure, and the lookup fails with the status error. -/
theorem C7_counterexample_status_203 :
    (demoExt (.ok [])).NewRequestWithContext MethodGet (profileURL "F") =
      .ok ⟨MethodGet, profileURL "F", []⟩ ∧
    demoClient.Do (((Request.mk MethodGet (profileURL "F") []).HeaderSet "Accept"
        "application/json").HeaderSet "X-Xbl-Contract-Version" "2") [] =
      (.ok ⟨203, "alice"⟩, [profileURL "F"]) ∧
    isSuccessStatus 203 ∧
    getGamertagFromXUID (demoExt (.ok [])) demoClient "F" [] =
      (.error (.unexpectedStatusCode 203), [profileURL "F"]) :=
  ⟨rfl, rfl, by decide, rfl⟩

/-- C7, amended: for a response obtained without transport failure the lookup fails with a
status error exactly when the status code is not 200 (OK). Every status that is not a
success status fails so; every 200 response goes on to the decoder, whose failure is a
decode error and whose success leads to the display name or the not-found error. -/
theorem C7_status_error_iff_not_200 {σ : Type} (ext : Externals σ) (client : Client σ)
    (xuid : String) (w w1 : σ) (req : Request) (resp : Response)
    (hreq : ext.NewRequestWithContext MethodGet (profileURL xuid) = .ok req)
    (hdo : client.Do ((req.HeaderSet "Accept" "application/json").HeaderSet
      "X-Xbl-Contract-Version" "2") w = (.ok resp, w1)) :
    ((∃ c, (getGamertagFromXUID ext client xuid w).1 = .error (.unexpectedStatusCode c)) ↔
      resp.StatusCode ≠ 200) ∧
    (resp.StatusCode ≠ 200 →
      getGamertagFromXUID ext client xuid w =
        (.error (.unexpectedStatusCode resp.StatusCode), ext.BodyClose resp w1)) ∧
    (¬ isSuccessStatus resp.StatusCode →
      getGamertagFromXUID ext client xuid w =
        (.error (.unexpectedStatusCode resp.StatusCode), ext.BodyClose resp w1)) ∧
    (resp.StatusCode = 200 →
      (∀ err, ext.Decode resp.Body = .error err →
        getGamertagFromXUID ext client xuid w =
          (.error (.decodeResponse err), ext.BodyClose resp w1)) ∧
      (∀ r, ext.Decode resp.Body = .ok r →
        getGamertagFromXUID ext client xuid w =
          (.error (.gamertagNotFound xuid), ext.BodyClose resp w1) ∨
        ∃ g, getGamertagFromXUID ext client xuid w = (.ok g, ext.BodyClose resp w1))) := by
  have hne : resp.StatusCode ≠ 200 →
      getGamertagFromXUID ext client xuid w =
        (.error (.unexpectedStatusCode resp.StatusCode), ext.BodyClose resp w1) := by
    intro h
    have h2 : resp.StatusCode ≠ StatusOK := h
    simp only [getGamertagFromXUID, hreq, hdo, h2, ne_eq, not_false_eq_true, if_true]
  refine ⟨⟨?_, fun h => ⟨_, by rw [hne h]⟩⟩, hne, ?_, ?_⟩
  · rintro ⟨c, hc⟩ h200
    have h2 : resp.StatusCode = StatusOK := h200
    simp only [getGamertagFromXUID, hreq, hdo, h2, ne_eq, not_true_eq_false, if_false] at hc
    rcases hd : ext.Decode resp.Body with err | r
    · simp [hd] at hc
    · rw [hd] at hc
      rcases r with ⟨users⟩
      cases users with
      | nil => simp at hc
      | cons u us =>
        rcases u with ⟨settings⟩
        cases settings with
        | nil => simp at hc
        | cons s ss => simp at hc
  · intro h
    apply hne
    intro h200
    apply h
    rw [h200]
    decide
  · intro h200
    have h2 : resp.StatusCode = StatusOK := h200
    constructor
    · intro err hd
      simp only [getGamertagFromXUID, hreq, hdo, h2, ne_eq, not_true_eq_false, if_false, hd]
    · intro r hd
      simp only [getGamertagFromXUID, hreq, hdo, h2, ne_eq, not_true_eq_false, if_false, hd]
      rcases r with ⟨users⟩
      cases users with
      | nil => left; rfl
      | cons u us =>
        rcases u with ⟨settings⟩
        cases settings with
        | nil => left; rfl
        | cons s ss => right; exact ⟨s.Value, rfl⟩

/-- C7, amended, at concrete inputs: a 404 and a 203 give the status error, a 200 goes on
to the decoder and gives the display name. -/
theorem C7_status_error_iff_not_200_witness :
    getGamertagFromXUID (demoExt (.ok [])) demoClient "E" [] =
      (.error (.unexpectedStatusCode 404), [profileURL "E"]) ∧
    getGamertagFromXUID (demoExt (.ok [])) demoClient "F" [] =
      (.error (.unexpectedStatusCode 203), [profileURL "F"]) ∧
    (getGamertagFromXUID (demoExt (.ok [])) demoClient "A" [] =
        (.error (.gamertagNotFound "A"), [profileURL "A"]) ∨
      ∃ g, getGamertagFromXUID (demoExt (.ok [])) demoClient "A" [] =
        (.ok g, [profileURL "A"])) :=
  ⟨(C7_status_error_iff_not_200 (demoExt (.ok [])) demoClient "E" [] [profileURL "E"]
      ⟨MethodGet, profileURL "E", []⟩ ⟨404, ""⟩ rfl rfl).2.1 (by decide),
    (C7_status_error_iff_not_200 (demoExt (.ok [])) demoClient "F" [] [profileURL "F"]
      ⟨MethodGet, profileURL "F", []⟩ ⟨203, "alice"⟩ rfl rfl).2.1 (by decide),
    ((C7_status_error_iff_not_200 (demoExt (.ok [])) demoClient "A" [] [profileURL "A"]
      ⟨MethodGet, profileURL "A", []⟩ ⟨200, "alice"⟩ rfl rfl).2.2.2 rfl).2
      ⟨[⟨[⟨"Alice"⟩]⟩]⟩ rfl⟩

/-- C8, as stated, fails for a decoded body whose first user has no settings and whose
second user has one: the body does contain a settings entry, and the lookup fails with the
not-found error. -/
theorem C8_counterexample_settings_in_second_user :
    (demoExt (.ok [])).Decode "second" = .ok ⟨[⟨[]⟩, ⟨[⟨"Steve"⟩]⟩]⟩ ∧
    demoClient.Do (((Request.mk MethodGet (profileURL "G") []).HeaderSet "Accept"
        "application/json").HeaderSet "X-Xbl-Contract-Version" "2") [] =
      (.ok ⟨200, "second"⟩, [profileURL "G"]) ∧
    (∃ u ∈ (ProfileResponse.mk [⟨[]⟩, ⟨[⟨"Steve"⟩]⟩]).ProfileUsers, u.Settings ≠ []) ∧
    getGamertagFromXUID (demoExt (.ok [])) demoClient "G" [] =
      (.error (.gamertagNotFound "G"), [profileURL "G"]) :=
  ⟨rfl, rfl, ⟨⟨[⟨"Steve"⟩]⟩, by decide, by decide⟩, rfl⟩

/-- C8, amended: for a 200 response whose body decodes, the lookup fails with the
not-found error exactly when `profileUsers` is empty or its first element has no settings
entry; otherwise it succeeds with the value of the first setting of the first element,
unchanged. -/
theorem C8_not_found_iff_first_user_has_no_setting {σ : Type} (ext : Externals σ)
    (client : Client σ) (xuid : String) (w w1 : σ) (req : Request) (resp : Response)
    (r : ProfileResponse)
    (hreq : ext.NewRequestWithContext MethodGet (profileURL xuid) = .ok req)
    (hdo : client.Do ((req.HeaderSet "Accept" "application/json").HeaderSet
      "X-Xbl-Contract-Version" "2") w = (.ok resp, w1))
    (hstatus : resp.StatusCode = 200)
    (hdec : ext.Decode resp.Body = .ok r) :
    ((getGamertagFromXUID ext client xuid w).1 = .error (.gamertagNotFound xuid) ↔
      (r.ProfileUsers = [] ∨ ∃ u rest, r.ProfileUsers = u :: rest ∧ u.Settings = [])) ∧
    ((r.ProfileUsers = [] ∨ ∃ u rest, r.ProfileUsers = u :: rest ∧ u.Settings = []) →
      getGamertagFromXUID ext client xuid w =
        (.error (.gamertagNotFound xuid), ext.BodyClose resp w1)) ∧
    (∀ u rest s more, r.ProfileUsers = u :: rest → u.Settings = s :: more →
      getGamertagFromXUID ext client xuid w = (.ok s.Value, ext.BodyClose resp w1)) := by
  have h2 : resp.StatusCode = StatusOK := hstatus
  have hrun : getGamertagFromXUID ext client xuid w =
      (match r.ProfileUsers with
        | [] => (.error (.gamertagNotFound xuid), ext.BodyClose resp w1)
        | user :: _ =>
          match user.Settings with
          | [] => (.error (.gamertagNotFound xuid), ext.BodyClose resp w1)
          | setting :: _ => (.ok setting.Value, ext.BodyClose resp w1)) := by
    simp only [getGamertagFromXUID, hreq, hdo, h2, ne_eq, not_true_eq_false, if_false, hdec]
  rw [hrun]
  rcases r with ⟨users⟩
  cases users with
  | nil => simp
  | cons u us =>
    rcases u with ⟨settings⟩
    cases settings with
    | nil =>
      refine ⟨⟨fun _ => Or.inr ⟨_, _, rfl, rfl⟩, fun _ => rfl⟩, fun _ => rfl, ?_⟩
      rintro u rest s more h hu
      simp only [List.cons.injEq] at h
      rcases h with ⟨rfl, rfl⟩
      simp at hu
    | cons s ss =>
      refine ⟨?_, ?_, ?_⟩
      · simp
      · rintro (h | ⟨u, rest, h, hu⟩)
        · simp at h
        · simp only [List.cons.injEq] at h
          rcases h with ⟨rfl, rfl⟩
          simp at hu
      · rintro u rest s2 more h hu
        simp only [List.cons.injEq] at h
        rcases h with ⟨rfl, rfl⟩
        simp only [List.cons.injEq] at hu
        rw [hu.1]

/-- C8, amended, at concrete inputs: the first setting of the first user is returned, also
when it is the empty string; a body whose first user has no settings is not found. -/
theorem C8_not_found_iff_first_user_has_no_setting_witness :
    getGamertagFromXUID (demoExt (.ok [])) demoClient "H" [] = (.ok "", [profileURL "H"]) ∧
    getGamertagFromXUID (demoExt (.ok [])) demoClient "G" [] =
      (.error (.gamertagNotFound "G"), [profileURL "G"]) :=
  ⟨(C8_not_found_iff_first_user_has_no_setting (demoExt (.ok [])) demoClient "H" []
      [profileURL "H"] ⟨MethodGet, profileURL "H", []⟩ ⟨200, "blank"⟩ ⟨[⟨[⟨""⟩, ⟨"x"⟩]⟩]⟩
      rfl rfl rfl rfl).2.2 ⟨[⟨""⟩, ⟨"x"⟩]⟩ [] ⟨""⟩ [⟨"x"⟩] rfl rfl,
    (C8_not_found_iff_first_user_has_no_setting (demoExt (.ok [])) demoClient "G" []
      [profileURL "G"] ⟨MethodGet, profileURL "G", []⟩ ⟨200, "second"⟩
      ⟨[⟨[]⟩, ⟨[⟨"Steve"⟩]⟩]⟩ rfl rfl rfl rfl).2.1 (Or.inr ⟨⟨[]⟩, [⟨[⟨"Steve"⟩]⟩], rfl, rfl⟩)⟩

end Mpsd
